import Mathlib

/-!
Verification of the MIPS TEE driver call protocol
(drivers/tee/mipstee/mipstee_call.c).

The driver code is embedded shallowly: the per-context state (session list,
cancellation-id table) is explicit, and the external collaborators
(shared-memory buffer provider, TIPC transport, parameter codec, kernel
allocators) are modelled by an oracle record `Env` giving the outcome of each
external call made during one operation.  Machine integers are modelled by
`Int`/`Nat`: the driver only compares return codes against 0, so no overflow
is relevant.  Parameter-slot contents are abstracted away (the claims only
depend on the success/failure status of the codec, which `Env` provides).
-/

namespace MipsTee

/-- Modelled from the spec: TEE client API success code (headers not under
src/). -/
def TEEC_SUCCESS : Nat := 0

/-- Modelled from the spec: TEE client API communication-error result code
(headers not under src/). -/
def TEEC_ERROR_COMMUNICATION : Nat := 0xFFFF000E

/-- Modelled from the spec: result-origin code meaning the failure was
detected in the communication layer (headers not under src/). -/
def TEEC_ORIGIN_COMMS : Nat := 2

/-- Modelled from the spec: errno value for invalid argument (kernel headers
not under src/). -/
def EINVAL : Int := 22

/-- Modelled from the spec: errno value for access denied (kernel headers not
under src/). -/
def EACCES : Int := 13

/-- Modelled from the spec: errno value for out of memory (kernel headers not
under src/). -/
def ENOMEM : Int := 12

/-- Modelled from the spec: errno value for table space exhausted, the
failure code of the cyclic id allocator (kernel headers not under src/). -/
def ENOSPC : Int := 28

/-- Modelled from the spec: the six recognized login classes (TEE client API
headers not under src/; values follow the GlobalPlatform client API). -/
def TEEC_LOGIN_PUBLIC : Nat := 0

/-- Modelled from the spec: login class user. -/
def TEEC_LOGIN_USER : Nat := 1

/-- Modelled from the spec: login class group. -/
def TEEC_LOGIN_GROUP : Nat := 2

/-- Modelled from the spec: login class application. -/
def TEEC_LOGIN_APPLICATION : Nat := 4

/-- Modelled from the spec: login class user+application. -/
def TEEC_LOGIN_USER_APPLICATION : Nat := 5

/-- Modelled from the spec: login class group+application. -/
def TEEC_LOGIN_GROUP_APPLICATION : Nat := 6

/-- Modelled from the spec: message command code for open-session
(mipstee_msg.h not under src/). -/
def MIPSTEE_MSG_CMD_OPEN_SESSION : Nat := 0

/-- Modelled from the spec: message command code for invoke-command. -/
def MIPSTEE_MSG_CMD_INVOKE_COMMAND : Nat := 1

/-- Modelled from the spec: message command code for close-session. -/
def MIPSTEE_MSG_CMD_CLOSE_SESSION : Nat := 2

/-- Modelled from the spec: message command code for cancel; this is the one
command sent with the one-way transport write. -/
def MIPSTEE_MSG_CMD_CANCEL : Nat := 3

/-- Per-context driver state (struct mipstee_context_data): the session list
(most recently added first, as list_add prepends), the cancellation idr
as an association list of (idr id, stored cancel_id), and the next id the
cyclic idr allocator will hand out. -/
structure CtxData where
  sess_list : List Nat
  cancel_idr : List (Nat × Nat)
  next_idr : Nat
deriving DecidableEq, Repr

/-- The shared-memory message (struct mipstee_msg_arg); parameter slots are
abstracted (their marshaling status is part of `Env`). -/
structure MsgArg where
  cmd : Nat
  func : Nat
  session : Nat
  cancel_id : Nat
  ret : Nat
  ret_origin : Nat
deriving DecidableEq, Repr

/-- The zeroed message produced by get_msg_arg (memset 0). -/
def initMsg : MsgArg := ⟨0, 0, 0, 0, 0, 0⟩

/-- Oracle for the external collaborators consulted during one operation:
shared-memory allocation (tee_shm_alloc / tee_shm_get_va / tee_shm_get_pa,
0 meaning success and a nonzero value the error returned), failure of the
cyclic idr allocator, failure of kzalloc, the transport status
(tipc_call / tipc_write), the response fields the remote peer writes into
the message on a successful round trip, and the status of each direction
of the parameter codec. -/
structure Env where
  shm_err : Int
  va_err : Int
  pa_err : Int
  idr_fail : Bool
  kzalloc_fail : Bool
  transport_rc : Int
  remote_ret : Nat
  remote_origin : Nat
  remote_session : Nat
  to_msg_rc : Int
  from_msg_rc : Int
deriving DecidableEq, Repr

/-- find_session: linear scan of the session list for the given id. -/
def find_session (ctxdata : CtxData) (session_id : Nat) : Option Nat :=
  ctxdata.sess_list.find? (· == session_id)

/-- mipstee_do_call_with_arg: send the message; MIPSTEE_MSG_CMD_CANCEL uses
the one-way tipc_write, everything else the blocking tipc_call, whose
successful round trip lets the remote peer write ret / ret_origin /
session into the shared message.  Returns 0 on success or the negative
transport status. -/
def mipstee_do_call_with_arg (env : Env) (msg : MsgArg) : Int × MsgArg :=
  if msg.cmd = MIPSTEE_MSG_CMD_CANCEL then
    if env.transport_rc < 0 then (env.transport_rc, msg) else (0, msg)
  else
    if env.transport_rc < 0 then (env.transport_rc, msg)
    else (0, { msg with ret := env.remote_ret, ret_origin := env.remote_origin,
                        session := env.remote_session })

/-- get_msg_arg: allocate the shared-memory message buffer; on a failure of
tee_shm_get_va or tee_shm_get_pa the buffer is freed before returning the
error.  Result: (status, number of buffer allocations, number of buffer
frees performed inside this function). -/
def get_msg_arg (env : Env) : Int × Nat × Nat :=
  if env.shm_err ≠ 0 then (env.shm_err, 0, 0)
  else if env.va_err ≠ 0 then (env.va_err, 1, 1)
  else if env.pa_err ≠ 0 then (env.pa_err, 1, 1)
  else (0, 1, 0)

/-- mipstee_authenticate_client: the switch over the recognized login
classes; any other value returns EACCES (positive, as in the source).
The placeholder identity bytes written into parameter slot 1 are
abstracted away. -/
def mipstee_authenticate_client (clnt_login : Nat) : Int :=
  if clnt_login = TEEC_LOGIN_PUBLIC ∨ clnt_login = TEEC_LOGIN_USER ∨
     clnt_login = TEEC_LOGIN_GROUP ∨ clnt_login = TEEC_LOGIN_APPLICATION ∨
     clnt_login = TEEC_LOGIN_USER_APPLICATION ∨
     clnt_login = TEEC_LOGIN_GROUP_APPLICATION then 0
  else EACCES

/-- idr_for_each with match_cancel_id: the idr id of the first live entry
whose stored pointer equals the given cancel_id, else 0. -/
def idr_for_each_match (l : List (Nat × Nat)) (cancel_id : Nat) : Nat :=
  match l.find? (fun e => e.2 == cancel_id) with
  | some e => e.1
  | none => 0

/-- mipstee_alloc_cancel_idr: 0 for the sentinel cancel_id 0; otherwise
detect a collision with a live entry (-EINVAL), then allocate the next
cyclic idr id for this cancel_id (the allocator itself may fail). -/
def mipstee_alloc_cancel_idr (ctxdata : CtxData) (cancel_id : Nat) (env : Env) :
    Int × CtxData :=
  if cancel_id = 0 then (0, ctxdata)
  else if idr_for_each_match ctxdata.cancel_idr cancel_id ≠ 0 then
    (-EINVAL, ctxdata)
  else if env.idr_fail then (-ENOSPC, ctxdata)
  else ((ctxdata.next_idr : Int),
        { ctxdata with
            cancel_idr := (ctxdata.next_idr, cancel_id) :: ctxdata.cancel_idr,
            next_idr := ctxdata.next_idr + 1 })

/-- mipstee_remove_cancel_idr: no-op for idr id 0, else idr_remove. -/
def mipstee_remove_cancel_idr (ctxdata : CtxData) (idr_id : Nat) : CtxData :=
  if idr_id = 0 then ctxdata
  else { ctxdata with
           cancel_idr := ctxdata.cancel_idr.filter (fun e => e.1 ≠ idr_id) }

/-- mipstee_find_cancel_idr: 0 for the sentinel, else the same scan as the
collision check. -/
def mipstee_find_cancel_idr (ctxdata : CtxData) (cancel_id : Nat) : Nat :=
  if cancel_id = 0 then 0
  else idr_for_each_match ctxdata.cancel_idr cancel_id

/-- Caller argument block of open-session (struct tee_ioctl_open_session_arg);
ret / ret_origin / session hold whatever the caller passed in until the
driver overwrites them. -/
structure OpenArg where
  clnt_login : Nat
  cancel_id : Nat
  session : Nat
  ret : Nat
  ret_origin : Nat
deriving DecidableEq, Repr

/-- Caller argument block of invoke-command (struct tee_ioctl_invoke_arg). -/
structure InvokeArg where
  func : Nat
  session : Nat
  cancel_id : Nat
  ret : Nat
  ret_origin : Nat
deriving DecidableEq, Repr

/-- Outcome of close-session: return status, new context state, and the
counts of message-buffer allocations, message-buffer frees and transport
operations performed. -/
structure CloseResult where
  rc : Int
  ctxdata : CtxData
  allocs : Nat
  frees : Nat
  transports : Nat
deriving DecidableEq, Repr

/-- mipstee_close_session: find and unlink the session record under the lock;
absence is -EINVAL.  Then best-effort: allocate a buffer (failure returns
the buffer error, with the record already removed), send CLOSE_SESSION
ignoring the transport status, free the buffer, return 0. -/
def mipstee_close_session (ctxdata : CtxData) (session : Nat) (env : Env) :
    CloseResult :=
  match find_session ctxdata session with
  | none => ⟨-EINVAL, ctxdata, 0, 0, 0⟩
  | some _ =>
    let ctx1 : CtxData := { ctxdata with sess_list := ctxdata.sess_list.erase session }
    let g := get_msg_arg env
    if g.1 ≠ 0 then ⟨g.1, ctx1, g.2.1, g.2.2, 0⟩
    else
      let msg := { initMsg with cmd := MIPSTEE_MSG_CMD_CLOSE_SESSION,
                                session := session }
      let _ := mipstee_do_call_with_arg env msg
      ⟨0, ctx1, 1, 1, 1⟩

/-- Outcome of open-session: return status, new context state, the caller
argument block as left by the driver, and the resource counts. -/
structure OpenResult where
  rc : Int
  ctxdata : CtxData
  arg : OpenArg
  allocs : Nat
  frees : Nat
  transports : Nat
deriving DecidableEq, Repr

/-- mipstee_open_session, with `cenv` the oracle for the defensive
close-session performed when marshaling the results back fails.  Mirrors
the source control flow: buffer, cancel-idr allocation, authentication,
marshal in, session-record kzalloc, transport call (failure forces the
communication-error pair into the message), conditional insertion into
the session list, marshal out (failure forces the communication-error
pair into the caller block and triggers the defensive close), and the
single unwind point releasing the idr entry and the buffer. -/
def mipstee_open_session (ctxdata : CtxData) (arg : OpenArg) (env cenv : Env) :
    OpenResult :=
  let g := get_msg_arg env
  if g.1 ≠ 0 then ⟨g.1, ctxdata, arg, g.2.1, g.2.2, 0⟩
  else
    let msg0 := { initMsg with cmd := MIPSTEE_MSG_CMD_OPEN_SESSION }
    let a := mipstee_alloc_cancel_idr ctxdata arg.cancel_id env
    if a.1 < 0 then
      ⟨a.1, mipstee_remove_cancel_idr a.2 0, arg, 1, 1, 0⟩
    else
      let idr_id := a.1.toNat
      let ctx1 := a.2
      let msg1 := { msg0 with cancel_id := idr_id }
      let rcAuth := mipstee_authenticate_client arg.clnt_login
      if rcAuth ≠ 0 then
        ⟨rcAuth, mipstee_remove_cancel_idr ctx1 idr_id, arg, 1, 1, 0⟩
      else if env.to_msg_rc ≠ 0 then
        ⟨env.to_msg_rc, mipstee_remove_cancel_idr ctx1 idr_id, arg, 1, 1, 0⟩
      else if env.kzalloc_fail then
        ⟨-ENOMEM, mipstee_remove_cancel_idr ctx1 idr_id, arg, 1, 1, 0⟩
      else
        let c := mipstee_do_call_with_arg env msg1
        let msg2 := if c.1 ≠ 0 then
            { c.2 with ret := TEEC_ERROR_COMMUNICATION,
                       ret_origin := TEEC_ORIGIN_COMMS }
          else c.2
        let ctx2 := if msg2.ret = TEEC_SUCCESS then
            { ctx1 with sess_list := msg2.session :: ctx1.sess_list }
          else ctx1
        if env.from_msg_rc ≠ 0 then
          let cl := mipstee_close_session ctx2 msg2.session cenv
          let arg1 := { arg with ret := TEEC_ERROR_COMMUNICATION,
                                 ret_origin := TEEC_ORIGIN_COMMS }
          ⟨0, mipstee_remove_cancel_idr cl.ctxdata idr_id, arg1,
           1 + cl.allocs, 1 + cl.frees, 1 + cl.transports⟩
        else
          let arg1 := { arg with session := msg2.session, ret := msg2.ret,
                                 ret_origin := msg2.ret_origin }
          ⟨0, mipstee_remove_cancel_idr ctx2 idr_id, arg1, 1, 1, 1⟩

/-- Outcome of invoke-command: return status, new context state, the ret /
ret_origin pair left in the caller block, and the resource counts. -/
structure InvokeResult where
  rc : Int
  ctxdata : CtxData
  ret : Nat
  ret_origin : Nat
  allocs : Nat
  frees : Nat
  transports : Nat
deriving DecidableEq, Repr

/-- mipstee_invoke_func: reject an unknown session before touching anything;
then buffer, cancel-idr allocation, marshal in, transport call (failure
forces the communication-error pair), marshal out (failure also forces
it), copy-back of ret / ret_origin, single unwind point. -/
def mipstee_invoke_func (ctxdata : CtxData) (arg : InvokeArg) (env : Env) :
    InvokeResult :=
  if (find_session ctxdata arg.session).isNone then
    ⟨-EINVAL, ctxdata, arg.ret, arg.ret_origin, 0, 0, 0⟩
  else
    let g := get_msg_arg env
    if g.1 ≠ 0 then ⟨g.1, ctxdata, arg.ret, arg.ret_origin, g.2.1, g.2.2, 0⟩
    else
      let msg0 := { initMsg with cmd := MIPSTEE_MSG_CMD_INVOKE_COMMAND,
                                 func := arg.func, session := arg.session }
      let a := mipstee_alloc_cancel_idr ctxdata arg.cancel_id env
      if a.1 < 0 then
        ⟨a.1, mipstee_remove_cancel_idr a.2 0, arg.ret, arg.ret_origin, 1, 1, 0⟩
      else
        let idr_id := a.1.toNat
        let ctx1 := a.2
        let msg1 := { msg0 with cancel_id := idr_id }
        if env.to_msg_rc ≠ 0 then
          ⟨env.to_msg_rc, mipstee_remove_cancel_idr ctx1 idr_id,
           arg.ret, arg.ret_origin, 1, 1, 0⟩
        else
          let c := mipstee_do_call_with_arg env msg1
          let msg2 := if c.1 ≠ 0 then
              { c.2 with ret := TEEC_ERROR_COMMUNICATION,
                         ret_origin := TEEC_ORIGIN_COMMS }
            else c.2
          let msg3 := if env.from_msg_rc ≠ 0 then
              { msg2 with ret := TEEC_ERROR_COMMUNICATION,
                          ret_origin := TEEC_ORIGIN_COMMS }
            else msg2
          ⟨0, mipstee_remove_cancel_idr ctx1 idr_id, msg3.ret, msg3.ret_origin,
           1, 1, 1⟩

/-- Outcome of cancel-request: return status, new context state, and the
counts of message-buffer allocations, frees and one-way transport
writes. -/
structure CancelResult where
  rc : Int
  ctxdata : CtxData
  allocs : Nat
  frees : Nat
  writes : Nat
deriving DecidableEq, Repr

/-- mipstee_cancel_req: a non-zero session id must exist locally; the caller
cancel_id must map to a live idr entry; then buffer, one-way CANCEL write
whose status is discarded, free, return 0. -/
def mipstee_cancel_req (ctxdata : CtxData) (cancel_id : Nat) (session : Nat)
    (env : Env) : CancelResult :=
  if session ≠ 0 ∧ (find_session ctxdata session).isNone then
    ⟨-EINVAL, ctxdata, 0, 0, 0⟩
  else
    let idr_id := mipstee_find_cancel_idr ctxdata cancel_id
    if idr_id = 0 then ⟨-EINVAL, ctxdata, 0, 0, 0⟩
    else
      let g := get_msg_arg env
      if g.1 ≠ 0 then ⟨g.1, ctxdata, g.2.1, g.2.2, 0⟩
      else
        let msg := { initMsg with cmd := MIPSTEE_MSG_CMD_CANCEL,
                                  session := session, cancel_id := idr_id }
        let _ := mipstee_do_call_with_arg env msg
        ⟨0, ctxdata, 1, 1, 1⟩

/-- Well-formedness of the cancellation idr, as maintained by the kernel idr:
every live id is at least 1 and below the next cyclic id. -/
def CancelIdrWF (c : CtxData) : Prop :=
  1 ≤ c.next_idr ∧ ∀ e ∈ c.cancel_idr, 1 ≤ e.1 ∧ e.1 < c.next_idr

instance (c : CtxData) : Decidable (CancelIdrWF c) := by
  unfold CancelIdrWF; infer_instance

/-- All preconditions that let open-session reach its blocking transport
call: the buffer is acquired, the cancellation-token allocation succeeds,
the login class is recognized and the inbound marshaling and the
session-record allocation succeed. -/
def OpenReachesCall (c : CtxData) (arg : OpenArg) (env : Env) : Prop :=
  env.shm_err = 0 ∧ env.va_err = 0 ∧ env.pa_err = 0 ∧
  (arg.cancel_id = 0 ∨
    (idr_for_each_match c.cancel_idr arg.cancel_id = 0 ∧ env.idr_fail = false)) ∧
  mipstee_authenticate_client arg.clnt_login = 0 ∧
  env.to_msg_rc = 0 ∧ env.kzalloc_fail = false

instance (c : CtxData) (arg : OpenArg) (env : Env) :
    Decidable (OpenReachesCall c arg env) := by
  unfold OpenReachesCall; infer_instance

lemma get_msg_arg_ok (env : Env) (h1 : env.shm_err = 0) (h2 : env.va_err = 0)
    (h3 : env.pa_err = 0) : get_msg_arg env = (0, 1, 0) := by
  simp [get_msg_arg, h1, h2, h3]

lemma get_msg_arg_balanced (env : Env) (h : (get_msg_arg env).1 ≠ 0) :
    (get_msg_arg env).2.1 = (get_msg_arg env).2.2 := by
  unfold get_msg_arg at *
  split_ifs at * <;> simp_all

@[simp]
lemma remove_cancel_idr_sess_list (c : CtxData) (i : Nat) :
    (mipstee_remove_cancel_idr c i).sess_list = c.sess_list := by
  unfold mipstee_remove_cancel_idr; split <;> rfl

@[simp]
lemma remove_cancel_idr_next (c : CtxData) (i : Nat) :
    (mipstee_remove_cancel_idr c i).next_idr = c.next_idr := by
  unfold mipstee_remove_cancel_idr; split <;> rfl

@[simp]
lemma alloc_cancel_idr_sess_list (c : CtxData) (cid : Nat) (env : Env) :
    (mipstee_alloc_cancel_idr c cid env).2.sess_list = c.sess_list := by
  unfold mipstee_alloc_cancel_idr; split_ifs <;> rfl

lemma alloc_cancel_idr_nonneg (c : CtxData) (cid : Nat) (env : Env)
    (h : cid = 0 ∨ (idr_for_each_match c.cancel_idr cid = 0 ∧ env.idr_fail = false)) :
    0 ≤ (mipstee_alloc_cancel_idr c cid env).1 := by
  by_cases hc : cid = 0
  · simp [mipstee_alloc_cancel_idr, hc]
  · rcases h with h | ⟨hm, hf⟩
    · exact absurd h hc
    · simp [mipstee_alloc_cancel_idr, hc, hm, hf]

lemma close_session_ctx (c : CtxData) (s : Nat) (env : Env) :
    (mipstee_close_session c s env).ctxdata =
      if (find_session c s).isSome then
        { c with sess_list := c.sess_list.erase s }
      else c := by
  unfold mipstee_close_session
  cases hf : find_session c s with
  | none => simp
  | some x => simp only [Option.isSome_some, if_pos]; split_ifs <;> rfl

lemma close_session_sess_sublist (c : CtxData) (s : Nat) (env : Env) :
    List.Sublist (mipstee_close_session c s env).ctxdata.sess_list c.sess_list := by
  rw [close_session_ctx]
  split_ifs
  · exact List.erase_sublist _ _
  · exact List.Sublist.refl _

lemma close_session_cancel_fields (c : CtxData) (s : Nat) (env : Env) :
    (mipstee_close_session c s env).ctxdata.cancel_idr = c.cancel_idr ∧
    (mipstee_close_session c s env).ctxdata.next_idr = c.next_idr := by
  rw [close_session_ctx]; split_ifs <;> exact ⟨rfl, rfl⟩

lemma close_session_balanced (c : CtxData) (s : Nat) (env : Env) :
    (mipstee_close_session c s env).allocs = (mipstee_close_session c s env).frees := by
  unfold mipstee_close_session
  cases hf : find_session c s with
  | none => rfl
  | some x =>
    simp only
    split_ifs with hg
    · exact get_msg_arg_balanced env hg
    · rfl

lemma open_session_balanced (c : CtxData) (arg : OpenArg) (env cenv : Env) :
    (mipstee_open_session c arg env cenv).allocs =
      (mipstee_open_session c arg env cenv).frees := by
  simp only [mipstee_open_session]
  split_ifs with h1 <;>
    first
      | rfl
      | exact get_msg_arg_balanced env h1
      | simp [close_session_balanced]

lemma invoke_func_balanced (c : CtxData) (arg : InvokeArg) (env : Env) :
    (mipstee_invoke_func c arg env).allocs =
      (mipstee_invoke_func c arg env).frees := by
  simp only [mipstee_invoke_func]
  split_ifs with h1 h2 <;>
    first
      | rfl
      | exact get_msg_arg_balanced env h2

lemma cancel_req_balanced (c : CtxData) (cid s : Nat) (env : Env) :
    (mipstee_cancel_req c cid s env).allocs =
      (mipstee_cancel_req c cid s env).frees := by
  simp only [mipstee_cancel_req]
  split_ifs with h1 h2 h3 <;>
    first
      | rfl
      | exact get_msg_arg_balanced env h3

lemma invoke_func_sess_list (c : CtxData) (arg : InvokeArg) (env : Env) :
    (mipstee_invoke_func c arg env).ctxdata.sess_list = c.sess_list := by
  simp only [mipstee_invoke_func]
  split_ifs <;> simp

lemma cancel_req_ctx (c : CtxData) (cid s : Nat) (env : Env) :
    (mipstee_cancel_req c cid s env).ctxdata = c := by
  simp only [mipstee_cancel_req]
  split_ifs <;> rfl

lemma do_call_open_session_field (env : Env) (x : Nat)
    (h : ¬(mipstee_do_call_with_arg env
        { cmd := MIPSTEE_MSG_CMD_OPEN_SESSION, func := initMsg.func,
          session := initMsg.session, cancel_id := x, ret := initMsg.ret,
          ret_origin := initMsg.ret_origin }).1 ≠ 0) :
    (mipstee_do_call_with_arg env
        { cmd := MIPSTEE_MSG_CMD_OPEN_SESSION, func := initMsg.func,
          session := initMsg.session, cancel_id := x, ret := initMsg.ret,
          ret_origin := initMsg.ret_origin }).2.session = env.remote_session := by
  unfold mipstee_do_call_with_arg at *
  simp only [MIPSTEE_MSG_CMD_OPEN_SESSION, MIPSTEE_MSG_CMD_CANCEL] at *
  split_ifs at * <;> simp_all

lemma open_session_sess_sublist (c : CtxData) (arg : OpenArg) (env cenv : Env) :
    List.Sublist (mipstee_open_session c arg env cenv).ctxdata.sess_list
      (env.remote_session :: c.sess_list) := by
  simp only [mipstee_open_session]
  split_ifs <;>
    simp only [remove_cancel_idr_sess_list, alloc_cancel_idr_sess_list] <;>
    first
      | exact List.sublist_cons_self _ _
      | exact List.Sublist.refl _
      | (simp_all [TEEC_ERROR_COMMUNICATION, TEEC_SUCCESS]; done)
      | (refine List.Sublist.trans (close_session_sess_sublist _ _ _) ?_
         rw [alloc_cancel_idr_sess_list]
         exact List.sublist_cons_self _ _)
      | (rename_i hcall hret
         rw [do_call_open_session_field env _ hcall]
         all_goals first
           | exact List.Sublist.refl _
           | exact close_session_sess_sublist _ _ _)

lemma find_session_isSome_iff (c : CtxData) (s : Nat) :
    (find_session c s).isSome = true ↔ s ∈ c.sess_list := by
  unfold find_session
  rw [List.find?_isSome]
  constructor
  · rintro ⟨x, hx, he⟩
    simp only [beq_iff_eq] at he
    exact he ▸ hx
  · intro h
    exact ⟨s, h, by simp⟩

lemma find_session_eq_none_iff (c : CtxData) (s : Nat) :
    find_session c s = none ↔ s ∉ c.sess_list := by
  unfold find_session
  rw [List.find?_eq_none]
  constructor
  · intro h hm
    have := h s hm
    simp at this
  · intro h x hx he
    simp only [beq_iff_eq] at he
    exact h (he ▸ hx)

lemma do_call_fail (env : Env) (msg : MsgArg) (h : env.transport_rc < 0) :
    mipstee_do_call_with_arg env msg = (env.transport_rc, msg) := by
  simp [mipstee_do_call_with_arg, h]

lemma close_session_rc_of_found (c : CtxData) (s : Nat) (env : Env)
    (hf : (find_session c s).isSome = true) (h1 : env.shm_err = 0)
    (h2 : env.va_err = 0) (h3 : env.pa_err = 0) :
    (mipstee_close_session c s env).rc = 0 := by
  simp only [mipstee_close_session]
  cases hfs : find_session c s with
  | none => rw [hfs] at hf; simp at hf
  | some x => simp [get_msg_arg_ok env h1 h2 h3]

lemma close_session_rc_of_none (c : CtxData) (s : Nat) (env : Env)
    (h : find_session c s = none) :
    (mipstee_close_session c s env).rc = -EINVAL := by
  simp [mipstee_close_session, h]

lemma close_session_found_of_rc_zero (c : CtxData) (s : Nat) (env : Env)
    (h : (mipstee_close_session c s env).rc = 0) :
    (find_session c s).isSome = true := by
  cases hfs : find_session c s with
  | none =>
    simp only [mipstee_close_session, hfs] at h
    norm_num [EINVAL] at h
  | some x => simp

lemma authenticate_of_not_mem (login : Nat)
    (h : login ∉ [TEEC_LOGIN_PUBLIC, TEEC_LOGIN_USER, TEEC_LOGIN_GROUP,
                  TEEC_LOGIN_APPLICATION, TEEC_LOGIN_USER_APPLICATION,
                  TEEC_LOGIN_GROUP_APPLICATION]) :
    mipstee_authenticate_client login = EACCES := by
  simp only [List.mem_cons, List.not_mem_nil, or_false, not_or] at h
  obtain ⟨p1, p2, p3, p4, p5, p6⟩ := h
  simp [mipstee_authenticate_client, p1, p2, p3, p4, p5, p6]

lemma match_zero_no_entry (l : List (Nat × Nat)) (cid : Nat)
    (hwf : ∀ e ∈ l, 1 ≤ e.1) (h : idr_for_each_match l cid = 0) :
    ∀ e ∈ l, e.2 ≠ cid := by
  intro e he heq
  unfold idr_for_each_match at h
  cases hf : l.find? (fun x => x.2 == cid) with
  | none =>
    have := List.find?_eq_none.mp hf e he
    simp [heq] at this
  | some x =>
    rw [hf] at h
    have hx := hwf x (List.mem_of_find?_eq_some hf)
    simp only at h
    omega

lemma match_ne_zero_of_mem (l : List (Nat × Nat)) (cid : Nat)
    (hwf : ∀ e ∈ l, 1 ≤ e.1) (h : ∃ e ∈ l, e.2 = cid) :
    idr_for_each_match l cid ≠ 0 := by
  obtain ⟨e, he, hcid⟩ := h
  unfold idr_for_each_match
  cases hf : l.find? (fun x => x.2 == cid) with
  | none =>
    have := List.find?_eq_none.mp hf e he
    simp [hcid] at this
  | some x =>
    have := hwf x (List.mem_of_find?_eq_some hf)
    simp only
    omega

lemma alloc_cancel_idr_success (c : CtxData) (cid : Nat) (env : Env)
    (hc : cid ≠ 0) (hm : idr_for_each_match c.cancel_idr cid = 0)
    (hf : env.idr_fail = false) :
    mipstee_alloc_cancel_idr c cid env =
      ((c.next_idr : Int),
       { c with cancel_idr := (c.next_idr, cid) :: c.cancel_idr,
                next_idr := c.next_idr + 1 }) := by
  simp [mipstee_alloc_cancel_idr, hc, hm, hf]

lemma find_cancel_after_unwind (c : CtxData) (cid : Nat) (env : Env)
    (d : CtxData) (hwf : CancelIdrWF c)
    (halloc : cid = 0 ∨
      (idr_for_each_match c.cancel_idr cid = 0 ∧ env.idr_fail = false))
    (hd : d.cancel_idr = (mipstee_alloc_cancel_idr c cid env).2.cancel_idr) :
    mipstee_find_cancel_idr
      (mipstee_remove_cancel_idr d (mipstee_alloc_cancel_idr c cid env).1.toNat)
      cid = 0 := by
  by_cases hc : cid = 0
  · subst hc; simp [mipstee_find_cancel_idr]
  · rcases halloc with h | ⟨hm, hf⟩
    · exact absurd h hc
    · rw [alloc_cancel_idr_success c cid env hc hm hf] at hd ⊢
      simp only [Int.toNat_natCast]
      have hn : c.next_idr ≠ 0 := by have := hwf.1; omega
      unfold mipstee_remove_cancel_idr mipstee_find_cancel_idr
      rw [if_neg hn, if_neg hc]
      simp only [remove_cancel_idr_next]
      rw [hd]
      simp only [List.filter_cons]
      have hself : (decide (¬(c.next_idr = c.next_idr))) = false := by simp
      rw [hself]
      simp only [if_false, Bool.false_eq_true]
      have hkeep : c.cancel_idr.filter
          (fun e => decide ¬(e.1 = c.next_idr)) = c.cancel_idr := by
        rw [List.filter_eq_self]
        intro a ha
        have := hwf.2 a ha
        simp only [decide_eq_true_eq]
        omega
      rw [hkeep]
      have hnone : ∀ e ∈ c.cancel_idr, e.2 ≠ cid :=
        match_zero_no_entry c.cancel_idr cid (fun e he => (hwf.2 e he).1) hm
      unfold idr_for_each_match
      cases hfind : c.cancel_idr.find? (fun x => x.2 == cid) with
      | none => rfl
      | some x =>
        have hx2 := List.find?_some hfind
        have hxm := List.mem_of_find?_eq_some hfind
        simp only [beq_iff_eq] at hx2
        exact absurd hx2 (hnone x hxm)

lemma do_call_open_ok (env : Env) (x : Nat) (h : 0 ≤ env.transport_rc) :
    mipstee_do_call_with_arg env
        { cmd := MIPSTEE_MSG_CMD_OPEN_SESSION, func := initMsg.func,
          session := initMsg.session, cancel_id := x, ret := initMsg.ret,
          ret_origin := initMsg.ret_origin } =
      (0, { cmd := MIPSTEE_MSG_CMD_OPEN_SESSION, func := initMsg.func,
            session := env.remote_session, cancel_id := x,
            ret := env.remote_ret, ret_origin := env.remote_origin }) := by
  unfold mipstee_do_call_with_arg
  rw [if_neg (by simp [MIPSTEE_MSG_CMD_OPEN_SESSION, MIPSTEE_MSG_CMD_CANCEL]),
      if_neg (not_lt.mpr h)]

/-- States of one context reachable by arbitrary sequences of the four
operations, with arbitrary behavior of the external collaborators
(including the remote peer). -/
inductive ReachableAny : CtxData → Prop where
  | init : ReachableAny ⟨[], [], 1⟩
  | open_step (c : CtxData) (arg : OpenArg) (env cenv : Env) :
      ReachableAny c → ReachableAny (mipstee_open_session c arg env cenv).ctxdata
  | close_step (c : CtxData) (s : Nat) (env : Env) :
      ReachableAny c → ReachableAny (mipstee_close_session c s env).ctxdata
  | invoke_step (c : CtxData) (arg : InvokeArg) (env : Env) :
      ReachableAny c → ReachableAny (mipstee_invoke_func c arg env).ctxdata
  | cancel_step (c : CtxData) (cid s : Nat) (env : Env) :
      ReachableAny c → ReachableAny (mipstee_cancel_req c cid s env).ctxdata

/-- Reachability under the documented assumption on the remote peer: each
open-session round trip assigns a session id that is not already present
in the context's session list. -/
inductive ReachableFresh : CtxData → Prop where
  | init : ReachableFresh ⟨[], [], 1⟩
  | open_step (c : CtxData) (arg : OpenArg) (env cenv : Env) :
      env.remote_session ∉ c.sess_list →
      ReachableFresh c → ReachableFresh (mipstee_open_session c arg env cenv).ctxdata
  | close_step (c : CtxData) (s : Nat) (env : Env) :
      ReachableFresh c → ReachableFresh (mipstee_close_session c s env).ctxdata
  | invoke_step (c : CtxData) (arg : InvokeArg) (env : Env) :
      ReachableFresh c → ReachableFresh (mipstee_invoke_func c arg env).ctxdata
  | cancel_step (c : CtxData) (cid s : Nat) (env : Env) :
      ReachableFresh c → ReachableFresh (mipstee_cancel_req c cid s env).ctxdata

/-- C8 counterexample: the invariant fails as stated.  Starting from a fresh
context, two open-session calls in which the remote peer reports success
with the same session id 42 produce a reachable state whose session list
holds two records with session_id 42 (the code performs no uniqueness
check on insertion). -/
theorem session_registry_duplicate_counterexample :
    ReachableAny ⟨[42, 42], [], 1⟩ ∧
    2 ≤ List.count 42 (CtxData.mk [42, 42] [] 1).sess_list := by
  constructor
  · have h1 := ReachableAny.open_step ⟨[], [], 1⟩ ⟨0, 0, 0, 0, 0⟩
      ⟨0, 0, 0, false, false, 0, 0, 0, 42, 0, 0⟩
      ⟨0, 0, 0, false, false, 0, 0, 0, 42, 0, 0⟩ ReachableAny.init
    rw [(by decide : (mipstee_open_session ⟨[], [], 1⟩ ⟨0, 0, 0, 0, 0⟩
      ⟨0, 0, 0, false, false, 0, 0, 0, 42, 0, 0⟩
      ⟨0, 0, 0, false, false, 0, 0, 0, 42, 0, 0⟩).ctxdata = ⟨[42], [], 1⟩)] at h1
    have h2 := ReachableAny.open_step ⟨[42], [], 1⟩ ⟨0, 0, 0, 0, 0⟩
      ⟨0, 0, 0, false, false, 0, 0, 0, 42, 0, 0⟩
      ⟨0, 0, 0, false, false, 0, 0, 0, 42, 0, 0⟩ h1
    rw [(by decide : (mipstee_open_session ⟨[42], [], 1⟩ ⟨0, 0, 0, 0, 0⟩
      ⟨0, 0, 0, false, false, 0, 0, 0, 42, 0, 0⟩
      ⟨0, 0, 0, false, false, 0, 0, 0, 42, 0, 0⟩).ctxdata = ⟨[42, 42], [], 1⟩)] at h2
    exact h2
  · decide

/-- C8 (amended): in every state reachable by any sequence of the four
operations, provided each successful open-session inserts a remote-assigned
session id that is not already present (the documented assumption on the
remote peer), the session registry holds at most one record per distinct
session_id. -/
theorem session_registry_at_most_one (c : CtxData) (h : ReachableFresh c) :
    ∀ s : Nat, List.count s c.sess_list ≤ 1 := by
  have hn : c.sess_list.Nodup := by
    induction h with
    | init => simp
    | open_step c arg env cenv hfresh hr ih =>
      exact (open_session_sess_sublist c arg env cenv).nodup
        (List.nodup_cons.mpr ⟨hfresh, ih⟩)
    | close_step c s env hr ih =>
      exact (close_session_sess_sublist c s env).nodup ih
    | invoke_step c arg env hr ih =>
      rw [invoke_func_sess_list]; exact ih
    | cancel_step c cid s env hr ih =>
      rw [cancel_req_ctx]; exact ih
  intro s
  exact List.nodup_iff_count_le_one.mp hn s

/-- Witness for the amended C8 at a concrete reachable state. -/
theorem session_registry_at_most_one_witness :
    List.count 42 (CtxData.mk [42] [] 1).sess_list ≤ 1 := by
  have h1 : ReachableFresh ⟨[42], [], 1⟩ := by
    have h0 := ReachableFresh.open_step ⟨[], [], 1⟩ ⟨0, 0, 0, 0, 0⟩
      ⟨0, 0, 0, false, false, 0, 0, 0, 42, 0, 0⟩
      ⟨0, 0, 0, false, false, 0, 0, 0, 42, 0, 0⟩ (by decide) ReachableFresh.init
    rwa [(by decide : (mipstee_open_session ⟨[], [], 1⟩ ⟨0, 0, 0, 0, 0⟩
      ⟨0, 0, 0, false, false, 0, 0, 0, 42, 0, 0⟩
      ⟨0, 0, 0, false, false, 0, 0, 0, 42, 0, 0⟩).ctxdata = ⟨[42], [], 1⟩)] at h0
  exact session_registry_at_most_one ⟨[42], [], 1⟩ h1 42

/-- C3: in every invocation of each of the four operations, whatever internal
step fails, the number of message-buffer allocations equals the number of
message-buffer frees. -/
theorem message_buffer_balanced :
    (∀ (c : CtxData) (arg : OpenArg) (env cenv : Env),
      (mipstee_open_session c arg env cenv).allocs =
        (mipstee_open_session c arg env cenv).frees) ∧
    (∀ (c : CtxData) (s : Nat) (env : Env),
      (mipstee_close_session c s env).allocs =
        (mipstee_close_session c s env).frees) ∧
    (∀ (c : CtxData) (arg : InvokeArg) (env : Env),
      (mipstee_invoke_func c arg env).allocs =
        (mipstee_invoke_func c arg env).frees) ∧
    (∀ (c : CtxData) (cid s : Nat) (env : Env),
      (mipstee_cancel_req c cid s env).allocs =
        (mipstee_cancel_req c cid s env).frees) :=
  ⟨open_session_balanced, close_session_balanced, invoke_func_balanced,
   cancel_req_balanced⟩

/-- C5: invoke-command against a session id absent from the session registry
fails with -EINVAL, leaves the context untouched, allocates no message
buffer and performs no transport operation. -/
theorem invoke_unknown_session_rejected (c : CtxData) (arg : InvokeArg)
    (env : Env) (h : find_session c arg.session = none) :
    (mipstee_invoke_func c arg env).rc = -EINVAL ∧
    (mipstee_invoke_func c arg env).ctxdata = c ∧
    (mipstee_invoke_func c arg env).allocs = 0 ∧
    (mipstee_invoke_func c arg env).transports = 0 := by
  simp [mipstee_invoke_func, h]

/-- Witness for C5 at a concrete input: invoking session 42 on an empty
registry. -/
theorem invoke_unknown_session_rejected_witness :
    find_session ⟨[], [], 1⟩ 42 = none ∧
    (mipstee_invoke_func ⟨[], [], 1⟩ ⟨1, 42, 0, 9, 9⟩
      ⟨0, 0, 0, false, false, 0, 0, 0, 0, 0, 0⟩).rc = -EINVAL :=
  ⟨by decide,
   (invoke_unknown_session_rejected ⟨[], [], 1⟩ ⟨1, 42, 0, 9, 9⟩
     ⟨0, 0, 0, false, false, 0, 0, 0, 0, 0, 0⟩ (by decide)).1⟩

/-- C2 counterexample: with session 7 in the registry, a close-session whose
message-buffer allocation fails (-ENOMEM) removes the local record yet
returns -12, not success — refuting the claim that a found-and-removed
record always yields status 0, including when the remote call cannot be
attempted. -/
theorem close_session_buffer_fail_counterexample :
    (mipstee_close_session ⟨[7], [], 1⟩ 7
      ⟨-12, 0, 0, false, false, 0, 0, 0, 0, 0, 0⟩).ctxdata.sess_list = [] ∧
    (mipstee_close_session ⟨[7], [], 1⟩ 7
      ⟨-12, 0, 0, false, false, 0, 0, 0, 0, 0, 0⟩).rc ≠ 0 := by
  decide

/-- C2 (amended): whenever the local session record was found, it is removed,
and the operation returns 0 regardless of the transport call's outcome —
provided the message buffer was acquired; if the buffer acquisition fails,
that error is returned instead (with the record still removed). -/
theorem close_session_success_once_removed (c : CtxData) (s : Nat) (env : Env)
    (hf : (find_session c s).isSome = true) :
    (mipstee_close_session c s env).ctxdata.sess_list = c.sess_list.erase s ∧
    (env.shm_err = 0 → env.va_err = 0 → env.pa_err = 0 →
      (mipstee_close_session c s env).rc = 0) := by
  refine ⟨?_, fun h1 h2 h3 => close_session_rc_of_found c s env hf h1 h2 h3⟩
  rw [close_session_ctx, if_pos hf]

/-- Witness for the amended C2: session 7 present, transport forced to fail,
status is still 0 and the record is gone. -/
theorem close_session_success_once_removed_witness :
    (find_session ⟨[7], [], 1⟩ 7).isSome = true ∧
    (mipstee_close_session ⟨[7], [], 1⟩ 7
      ⟨0, 0, 0, false, false, -9, 0, 0, 0, 0, 0⟩).rc = 0 :=
  ⟨by decide,
   (close_session_success_once_removed ⟨[7], [], 1⟩ 7
     ⟨0, 0, 0, false, false, -9, 0, 0, 0, 0, 0⟩ (by decide)).2 rfl rfl rfl⟩

/-- C4: on a registry holding at most one record for session id S, after a
close-session(S) that returned success, find(S) reports absence and a
second close-session(S) fails with -EINVAL rather than succeeding
idempotently. -/
theorem close_session_not_idempotent (c : CtxData) (s : Nat) (env1 env2 : Env)
    (hcount : List.count s c.sess_list ≤ 1)
    (hrc : (mipstee_close_session c s env1).rc = 0) :
    find_session (mipstee_close_session c s env1).ctxdata s = none ∧
    (mipstee_close_session (mipstee_close_session c s env1).ctxdata s env2).rc
      = -EINVAL := by
  have hf := close_session_found_of_rc_zero c s env1 hrc
  have hmem : s ∈ c.sess_list := (find_session_isSome_iff c s).mp hf
  have hctx : (mipstee_close_session c s env1).ctxdata.sess_list
      = c.sess_list.erase s := by
    rw [close_session_ctx, if_pos hf]
  have hnot : s ∉ (mipstee_close_session c s env1).ctxdata.sess_list := by
    rw [hctx]
    intro hin
    have hcnt := List.count_erase_self s c.sess_list
    have hpos : 0 < List.count s c.sess_list := List.count_pos_iff.mpr hmem
    have hpos2 : 0 < List.count s (c.sess_list.erase s) :=
      List.count_pos_iff.mpr hin
    omega
  have hfn : find_session (mipstee_close_session c s env1).ctxdata s = none :=
    (find_session_eq_none_iff _ s).mpr hnot
  exact ⟨hfn, close_session_rc_of_none _ s env2 hfn⟩

/-- Witness for C4: close session 7 twice on a one-element registry. -/
theorem close_session_not_idempotent_witness :
    (List.count 7 (CtxData.mk [7] [] 1).sess_list ≤ 1 ∧
     (mipstee_close_session ⟨[7], [], 1⟩ 7
       ⟨0, 0, 0, false, false, 0, 0, 0, 0, 0, 0⟩).rc = 0) ∧
    (mipstee_close_session
      (mipstee_close_session ⟨[7], [], 1⟩ 7
        ⟨0, 0, 0, false, false, 0, 0, 0, 0, 0, 0⟩).ctxdata 7
      ⟨0, 0, 0, false, false, 0, 0, 0, 0, 0, 0⟩).rc = -EINVAL :=
  ⟨⟨by decide, by decide⟩,
   (close_session_not_idempotent ⟨[7], [], 1⟩ 7
     ⟨0, 0, 0, false, false, 0, 0, 0, 0, 0, 0⟩
     ⟨0, 0, 0, false, false, 0, 0, 0, 0, 0, 0⟩ (by decide) (by decide)).2⟩

/-- C6: allocating a cancellation token for a non-zero cancel_id that is
already live in the context's cancellation registry fails with -EINVAL and
leaves the registry unchanged; in particular an open-session call issued
while another call still holds the same cancel id fails with -EINVAL and
leaves the whole context unchanged. -/
theorem cancel_id_collision_rejected (c : CtxData) (arg : OpenArg)
    (env cenv : Env) (hwf : CancelIdrWF c) (hc : arg.cancel_id ≠ 0)
    (hlive : ∃ e ∈ c.cancel_idr, e.2 = arg.cancel_id)
    (h1 : env.shm_err = 0) (h2 : env.va_err = 0) (h3 : env.pa_err = 0) :
    mipstee_alloc_cancel_idr c arg.cancel_id env = (-EINVAL, c) ∧
    (mipstee_open_session c arg env cenv).rc = -EINVAL ∧
    (mipstee_open_session c arg env cenv).ctxdata = c := by
  have hm := match_ne_zero_of_mem c.cancel_idr arg.cancel_id
    (fun e he => (hwf.2 e he).1) hlive
  have ha : mipstee_alloc_cancel_idr c arg.cancel_id env = (-EINVAL, c) := by
    simp [mipstee_alloc_cancel_idr, hc, hm]
  refine ⟨ha, ?_, ?_⟩ <;>
    simp [mipstee_open_session, get_msg_arg_ok env h1 h2 h3, ha, EINVAL,
      mipstee_remove_cancel_idr]

/-- Witness for C6: cancel id 5 is live (idr entry (1, 5)); a second open
reusing cancel id 5 fails with -EINVAL. -/
theorem cancel_id_collision_rejected_witness :
    (CancelIdrWF ⟨[], [(1, 5)], 2⟩ ∧
     (∃ e ∈ (CtxData.mk [] [(1, 5)] 2).cancel_idr, e.2 = 5)) ∧
    (mipstee_open_session ⟨[], [(1, 5)], 2⟩ ⟨0, 5, 0, 9, 9⟩
      ⟨0, 0, 0, false, false, 0, 0, 0, 0, 0, 0⟩
      ⟨0, 0, 0, false, false, 0, 0, 0, 0, 0, 0⟩).rc = -EINVAL :=
  ⟨⟨by decide, by decide⟩,
   (cancel_id_collision_rejected ⟨[], [(1, 5)], 2⟩ ⟨0, 5, 0, 9, 9⟩
     ⟨0, 0, 0, false, false, 0, 0, 0, 0, 0, 0⟩
     ⟨0, 0, 0, false, false, 0, 0, 0, 0, 0, 0⟩
     (by decide) (by decide) (by decide) rfl rfl rfl).2.1⟩

set_option maxHeartbeats 1600000 in
/-- C9: an open-session whose caller login is none of the six recognized
classes fails with the access-denied code EACCES (returned positive, as
in the source), performs no transport operation and inserts no session
record. -/
theorem open_session_bad_login (c : CtxData) (arg : OpenArg) (env cenv : Env)
    (h1 : env.shm_err = 0) (h2 : env.va_err = 0) (h3 : env.pa_err = 0)
    (halloc : arg.cancel_id = 0 ∨
      (idr_for_each_match c.cancel_idr arg.cancel_id = 0 ∧
       env.idr_fail = false))
    (hlogin : arg.clnt_login ∉ [TEEC_LOGIN_PUBLIC, TEEC_LOGIN_USER,
      TEEC_LOGIN_GROUP, TEEC_LOGIN_APPLICATION, TEEC_LOGIN_USER_APPLICATION,
      TEEC_LOGIN_GROUP_APPLICATION]) :
    (mipstee_open_session c arg env cenv).rc = EACCES ∧
    (mipstee_open_session c arg env cenv).transports = 0 ∧
    (mipstee_open_session c arg env cenv).ctxdata.sess_list = c.sess_list := by
  have hauth := authenticate_of_not_mem arg.clnt_login hlogin
  have hauth13 : mipstee_authenticate_client arg.clnt_login = 13 := by
    rw [hauth]; decide
  have hge := alloc_cancel_idr_nonneg c arg.cancel_id env halloc
  simp only [mipstee_open_session, get_msg_arg_ok env h1 h2 h3]
  split_ifs <;>
    first
      | exact ⟨hauth, rfl, by simp⟩
      | (exfalso; omega)

/-- Witness for C9: login class 3 (not in the recognized set) is rejected
with EACCES. -/
theorem open_session_bad_login_witness :
    (mipstee_open_session ⟨[], [], 1⟩ ⟨3, 0, 0, 9, 9⟩
      ⟨0, 0, 0, false, false, 0, 0, 0, 0, 0, 0⟩
      ⟨0, 0, 0, false, false, 0, 0, 0, 0, 0, 0⟩).rc = EACCES ∧
    (mipstee_open_session ⟨[], [], 1⟩ ⟨3, 0, 0, 9, 9⟩
      ⟨0, 0, 0, false, false, 0, 0, 0, 0, 0, 0⟩
      ⟨0, 0, 0, false, false, 0, 0, 0, 0, 0, 0⟩).transports = 0 :=
  ⟨(open_session_bad_login ⟨[], [], 1⟩ ⟨3, 0, 0, 9, 9⟩
     ⟨0, 0, 0, false, false, 0, 0, 0, 0, 0, 0⟩
     ⟨0, 0, 0, false, false, 0, 0, 0, 0, 0, 0⟩
     rfl rfl rfl (by decide) (by decide)).1,
   (open_session_bad_login ⟨[], [], 1⟩ ⟨3, 0, 0, 9, 9⟩
     ⟨0, 0, 0, false, false, 0, 0, 0, 0, 0, 0⟩
     ⟨0, 0, 0, false, false, 0, 0, 0, 0, 0, 0⟩
     rfl rfl rfl (by decide) (by decide)).2.1⟩

/-- C10: a cancel-request whose local precondition checks pass (session id 0
or present, live token and acquired buffer) returns 0 even when the
one-way transport write fails with a negative status; the write status is
discarded. -/
theorem cancel_req_discards_write_status (c : CtxData)
    (cancel_id session : Nat) (env : Env)
    (hsess : session = 0 ∨ (find_session c session).isSome = true)
    (htok : mipstee_find_cancel_idr c cancel_id ≠ 0)
    (h1 : env.shm_err = 0) (h2 : env.va_err = 0) (h3 : env.pa_err = 0)
    (hw : env.transport_rc < 0) :
    (mipstee_cancel_req c cancel_id session env).rc = 0 ∧
    (mipstee_cancel_req c cancel_id session env).writes = 1 := by
  have hpre : ¬(session ≠ 0 ∧ (find_session c session).isNone = true) := by
    rintro ⟨hs, hn⟩
    rcases hsess with h | h
    · exact hs h
    · rw [Option.isNone_iff_eq_none] at hn
      rw [hn] at h
      simp at h
  have hlt := hw
  simp only [mipstee_cancel_req, get_msg_arg_ok env h1 h2 h3]
  rw [if_neg hpre, if_neg htok]
  norm_num

/-- Witness for C10: session 7 present, token (3, 5) live, write fails with
-5, yet the call reports 0. -/
theorem cancel_req_discards_write_status_witness :
    ((7 : Nat) = 0 ∨ (find_session ⟨[7], [(3, 5)], 4⟩ 7).isSome = true) ∧
    (mipstee_cancel_req ⟨[7], [(3, 5)], 4⟩ 5 7
      ⟨0, 0, 0, false, false, -5, 0, 0, 0, 0, 0⟩).rc = 0 :=
  ⟨by decide,
   (cancel_req_discards_write_status ⟨[7], [(3, 5)], 4⟩ 5 7
     ⟨0, 0, 0, false, false, -5, 0, 0, 0, 0, 0⟩
     (by decide) (by decide) rfl rfl rfl (by decide)).1⟩

set_option maxHeartbeats 1600000 in
/-- C1: an open-session whose blocking transport call returns a negative
status reports result = TEEC_ERROR_COMMUNICATION with origin
TEEC_ORIGIN_COMMS in the caller block, inserts no session record (no
per-id count grows), and leaves no cancellation-registry entry for the
call's cancel_id. -/
theorem open_session_transport_fail (c : CtxData) (arg : OpenArg)
    (env cenv : Env) (hwf : CancelIdrWF c) (hr : OpenReachesCall c arg env)
    (hfail : env.transport_rc < 0) :
    (mipstee_open_session c arg env cenv).arg.ret = TEEC_ERROR_COMMUNICATION ∧
    (mipstee_open_session c arg env cenv).arg.ret_origin = TEEC_ORIGIN_COMMS ∧
    (∀ s : Nat, List.count s (mipstee_open_session c arg env cenv).ctxdata.sess_list
      ≤ List.count s c.sess_list) ∧
    mipstee_find_cancel_idr (mipstee_open_session c arg env cenv).ctxdata
      arg.cancel_id = 0 := by
  obtain ⟨h1, h2, h3, halloc, hauth, hto, hkz⟩ := hr
  have hge := alloc_cancel_idr_nonneg c arg.cancel_id env halloc
  simp only [mipstee_open_session, get_msg_arg_ok env h1 h2 h3,
    do_call_fail env _ hfail]
  split_ifs <;>
    first
      | (refine ⟨rfl, rfl, fun s => ?_, ?_⟩
         · simp only [remove_cancel_idr_sess_list]
           first
             | (simp only [alloc_cancel_idr_sess_list]; exact Nat.le_refl _)
             | (exact le_trans ((close_session_sess_sublist _ _ _).count_le s)
                 (by simp only [alloc_cancel_idr_sess_list]
                     exact Nat.le_refl _))
         · first
             | exact find_cancel_after_unwind c arg.cancel_id env _ hwf halloc rfl
             | exact find_cancel_after_unwind c arg.cancel_id env _ hwf halloc
                 ((close_session_cancel_fields _ _ _).1))
      | (exfalso; omega)
      | ((exfalso; simp_all [TEEC_ERROR_COMMUNICATION, TEEC_SUCCESS, EACCES]) <;>
         omega)

/-- Witness for C1: transport forced to fail (-5) with cancel_id 5; result is
the communication-error pair and no entry for cancel id 5 survives. -/
theorem open_session_transport_fail_witness :
    (CancelIdrWF ⟨[], [], 1⟩ ∧
     OpenReachesCall ⟨[], [], 1⟩ ⟨0, 5, 0, 9, 9⟩
       ⟨0, 0, 0, false, false, -5, 0, 0, 0, 0, 0⟩) ∧
    (mipstee_open_session ⟨[], [], 1⟩ ⟨0, 5, 0, 9, 9⟩
      ⟨0, 0, 0, false, false, -5, 0, 0, 0, 0, 0⟩
      ⟨0, 0, 0, false, false, -5, 0, 0, 0, 0, 0⟩).arg.ret =
        TEEC_ERROR_COMMUNICATION ∧
    mipstee_find_cancel_idr
      (mipstee_open_session ⟨[], [], 1⟩ ⟨0, 5, 0, 9, 9⟩
        ⟨0, 0, 0, false, false, -5, 0, 0, 0, 0, 0⟩
        ⟨0, 0, 0, false, false, -5, 0, 0, 0, 0, 0⟩).ctxdata 5 = 0 :=
  ⟨⟨by decide, by decide⟩,
   (open_session_transport_fail ⟨[], [], 1⟩ ⟨0, 5, 0, 9, 9⟩
     ⟨0, 0, 0, false, false, -5, 0, 0, 0, 0, 0⟩
     ⟨0, 0, 0, false, false, -5, 0, 0, 0, 0, 0⟩
     (by decide) (by decide) (by decide)).1,
   (open_session_transport_fail ⟨[], [], 1⟩ ⟨0, 5, 0, 9, 9⟩
     ⟨0, 0, 0, false, false, -5, 0, 0, 0, 0, 0⟩
     ⟨0, 0, 0, false, false, -5, 0, 0, 0, 0, 0⟩
     (by decide) (by decide) (by decide)).2.2.2⟩

set_option maxHeartbeats 1600000 in
/-- C7: when the open-session round trip succeeds with result TEEC_SUCCESS
(a session was opened remotely) but marshaling the parameters back to the
caller fails, the caller block is forced to the communication-error pair
and the close-session sequence removes the just-inserted record, so the
registry holds no record for that id afterwards (the id being fresh). -/
theorem open_session_unmarshal_fail_closes (c : CtxData) (arg : OpenArg)
    (env cenv : Env) (hr : OpenReachesCall c arg env)
    (hok : 0 ≤ env.transport_rc) (hret : env.remote_ret = TEEC_SUCCESS)
    (hfrom : env.from_msg_rc ≠ 0)
    (hfresh : env.remote_session ∉ c.sess_list) :
    (mipstee_open_session c arg env cenv).arg.ret = TEEC_ERROR_COMMUNICATION ∧
    (mipstee_open_session c arg env cenv).arg.ret_origin = TEEC_ORIGIN_COMMS ∧
    env.remote_session ∉
      (mipstee_open_session c arg env cenv).ctxdata.sess_list := by
  obtain ⟨h1, h2, h3, halloc, hauth, hto, hkz⟩ := hr
  have hge := alloc_cancel_idr_nonneg c arg.cancel_id env halloc
  simp only [mipstee_open_session, get_msg_arg_ok env h1 h2 h3,
    do_call_open_ok env _ hok, hret]
  split_ifs <;>
    first
      | (refine ⟨rfl, rfl, ?_⟩
         simp only [remove_cancel_idr_sess_list]
         rw [close_session_ctx, if_pos (by
           rw [find_session_isSome_iff]
           exact List.mem_cons_self _ _)]
         simp only [alloc_cancel_idr_sess_list, List.erase_cons_head]
         exact hfresh)
      | (exfalso; omega)
      | (exfalso; simp_all [TEEC_ERROR_COMMUNICATION, TEEC_SUCCESS, EACCES];
         try omega)

/-- Witness for C7: remote opens session 42 with success, back-marshaling
fails (-14); the caller sees the communication-error pair and 42 is not in
the registry afterwards. -/
theorem open_session_unmarshal_fail_closes_witness :
    (OpenReachesCall ⟨[7], [], 1⟩ ⟨0, 0, 0, 9, 9⟩
       ⟨0, 0, 0, false, false, 0, 0, 0, 42, 0, -14⟩ ∧
     (42 : Nat) ∉ (CtxData.mk [7] [] 1).sess_list) ∧
    (mipstee_open_session ⟨[7], [], 1⟩ ⟨0, 0, 0, 9, 9⟩
      ⟨0, 0, 0, false, false, 0, 0, 0, 42, 0, -14⟩
      ⟨0, 0, 0, false, false, 0, 0, 0, 0, 0, 0⟩).arg.ret =
        TEEC_ERROR_COMMUNICATION ∧
    (42 : Nat) ∉ (mipstee_open_session ⟨[7], [], 1⟩ ⟨0, 0, 0, 9, 9⟩
      ⟨0, 0, 0, false, false, 0, 0, 0, 42, 0, -14⟩
      ⟨0, 0, 0, false, false, 0, 0, 0, 0, 0, 0⟩).ctxdata.sess_list :=
  ⟨⟨by decide, by decide⟩,
   (open_session_unmarshal_fail_closes ⟨[7], [], 1⟩ ⟨0, 0, 0, 9, 9⟩
     ⟨0, 0, 0, false, false, 0, 0, 0, 42, 0, -14⟩
     ⟨0, 0, 0, false, false, 0, 0, 0, 0, 0, 0⟩
     (by decide) (by decide) rfl (by decide) (by decide)).1,
   (open_session_unmarshal_fail_closes ⟨[7], [], 1⟩ ⟨0, 0, 0, 9, 9⟩
     ⟨0, 0, 0, false, false, 0, 0, 0, 42, 0, -14⟩
     ⟨0, 0, 0, false, false, 0, 0, 0, 0, 0, 0⟩
     (by decide) (by decide) rfl (by decide) (by decide)).2.2⟩

end MipsTee
